import Mathlib

/-!
Shallow embedding of skll/data/featureset.py (class FeatureSet).

Modelling conventions:
* numpy 1-D arrays are Lean lists; a scipy sparse matrix is a dense list of
  rows together with the stored column count of its shape tuple.
* Python None is modelled with Option: an optional field is an Option of a
  list, and an "unset" per-entry sentinel (the fill value used for missing
  ids or classes) is a none entry inside the list.
* Example ids are integers and class labels are strings; feature values are
  integers (the code only moves values around, never computes with them).
* Exceptions become an Err value in an Except result.
* deepcopy of a pure value is the value itself.  For the one place where
  sharing of a mutable vectorizer object matters (the merge loop mutates the
  deepcopied vectorizer in place), a second translation threads an explicit
  store of DictVectorizer objects, see FSH.add below.
* The vectorizer is the external capability of the spec: the Dictionary
  variant supports forward lookup (subscription), membership and name
  enumeration over its vocabulary; the Hashing variant supports none of
  these, so membership tests against it raise a TypeError.
-/

namespace Skll

/-- Error outcomes of the embedded operations.  ValueError instances raised
with distinct messages in the source are given distinct constructors so that
theorems can tell the failure modes apart. -/
inductive Err where
  | indexError
  | attributeError
  | typeError
  | incompatibleVectorizer
  | duplicateFeatureName
  | misalignedIds
  | conflictingLabels
  | broadcastError
  | maskLengthError
  | invertTypeError
  | columnIndexError
  | valueError
  deriving DecidableEq

/-- A scipy sparse matrix, modelled densely: the list of rows plus the column
count stored in the shape tuple. -/
structure Mat where
  rows : List (List Int)
  ncols : Nat
  deriving DecidableEq

/-- The vocabulary side of an sklearn DictVectorizer: the mapping
vocabulary_ from feature name to column index (an insertion-ordered
association list) and the list feature_names_. -/
structure DictVec where
  vocab : List (String × Nat)
  featureNames : List String
  deriving DecidableEq

/-- Forward lookup of a feature name in the vocabulary mapping. -/
def DictVec.lookup (d : DictVec) (name : String) : Option Nat :=
  (d.vocab.find? (fun p => p.1 = name)).map (fun p => p.2)

/-- The two vectorizer variants consumed by FeatureSet: DictVectorizer with
its vocabulary, or FeatureHasher with its fixed width. -/
inductive Vec where
  | dict (d : DictVec)
  | hasher (n : Nat)
  deriving DecidableEq

/-- The FeatureSet record: parallel optional arrays of ids, classes and the
feature matrix, plus the vectorizer that produced the matrix columns. -/
structure FeatureSet where
  ids : Option (List (Option Int))
  classes : Option (List (Option String))
  features : Option Mat
  feat_vectorizer : Option Vec
  deriving DecidableEq

/-- Shape tuple of a one-dimensional numpy array: a single-element list
holding the length. -/
def npShape {α : Type} (xs : List α) : List Nat := [xs.length]

/-- Indexing a shape tuple; an index past the number of dimensions raises
IndexError, which is what shape[1] does on a one-dimensional array. -/
def tupleIdx (t : List Nat) (i : Nat) : Except Err Nat :=
  match t.get? i with
  | some n => Except.ok n
  | none => Except.error Err.indexError

/-- Elementwise equality of two numpy arrays followed by np.all, with the
broadcasting rules of the == ufunc: equal lengths compare elementwise, a
length-one array broadcasts against the other, and any other shape mismatch
makes the comparison a scalar False (the behaviour of the numpy versions the
source targets). -/
def npAllEqList {α : Type} [DecidableEq α] (xs ys : List α) : Bool :=
  match xs, ys with
  | [x], ys => ys.all (fun y => y = x)
  | xs, [y] => xs.all (fun x => x = y)
  | xs, ys => decide (xs.length = ys.length) && decide (xs = ys)

/-- np.all(a == b) where either side may be the Python constant None: None
compared with an array is a scalar False, None with None is True. -/
def npAllEqO {α : Type} [DecidableEq α] : Option (List α) → Option (List α) → Bool
  | some xs, some ys => npAllEqList xs ys
  | none, none => true
  | _, _ => false

/-- np.logical_and of two boolean 1-D arrays: a ufunc, so equal lengths zip,
a length-one operand broadcasts, and any other mismatch raises a broadcast
ValueError. -/
def npLogicalAnd (xs ys : List Bool) : Except Err (List Bool) :=
  if xs.length = ys.length then Except.ok (List.zipWith and xs ys)
  else
    match xs, ys with
    | [x], ys => Except.ok (ys.map (fun y => x && y))
    | xs, [y] => Except.ok (xs.map (fun x => x && y))
    | _, _ => Except.error Err.broadcastError

/-- np.in1d of the ids array against a list of query ids: an unset (none)
entry never equals a concrete query id. -/
def npIn1dInt (xs : List (Option Int)) (targets : List Int) : List Bool :=
  xs.map (fun x =>
    match x with
    | some v => targets.contains v
    | none => false)

/-- np.in1d of the classes array against a list of query labels. -/
def npIn1dStr (xs : List (Option String)) (targets : List String) : List Bool :=
  xs.map (fun x =>
    match x with
    | some v => targets.contains v
    | none => false)

/-- Boolean-mask indexing of a 1-D array; a mask whose length differs from
the array raises an IndexError. -/
def npBoolIndex {α : Type} (xs : List α) (mask : List Bool) : Except Err (List α) :=
  if xs.length = mask.length then
    Except.ok ((xs.zip mask).filterMap (fun p => if p.2 then some p.1 else none))
  else Except.error Err.maskLengthError

/-- Bitwise invert of an index array as used by the tilde operator: an empty
np.array from sorted has float dtype, and invert on floats raises TypeError;
a nonempty integer index array maps each index i to -(i+1). -/
def npInvert (idxs : List Nat) : Except Err (List Int) :=
  match idxs with
  | [] => Except.error Err.invertTypeError
  | _ => Except.ok (idxs.map (fun i => -((i : Int) + 1)))

/-- Resolution of a possibly negative fancy index against a dimension of
size n: negative indices count from the end, anything out of range raises
IndexError. -/
def resolveIntIndex (n : Nat) (i : Int) : Except Err Nat :=
  if 0 ≤ i then
    if i < (n : Int) then Except.ok i.toNat else Except.error Err.columnIndexError
  else
    if 0 ≤ i + (n : Int) then Except.ok (i + (n : Int)).toNat
    else Except.error Err.columnIndexError

/-- Selection of the given columns of one row, with bounds taken from the
stored column count of the matrix shape. -/
def rowSelectNat (row : List Int) (cols : List Nat) (ncols : Nat) : Except Err (List Int) :=
  if cols.all (fun j => j < ncols) then Except.ok (cols.map (fun j => row.getD j 0))
  else Except.error Err.columnIndexError

/-- Selection of possibly negative column indices of one row. -/
def rowSelectInt (row : List Int) (cols : List Int) (ncols : Nat) : Except Err (List Int) := do
  let resolved ← cols.mapM (resolveIntIndex ncols)
  rowSelectNat row resolved ncols

/-- Horizontal stack of two matrices with equal row counts, as sp.hstack
produces it. -/
def hstackM (a b : Mat) : Mat :=
  ⟨(a.rows.zip b.rows).map (fun p => p.1 ++ p.2), a.ncols + b.ncols⟩

/-- Fancy column indexing of a matrix with nonnegative indices. -/
def selectColsNat (m : Mat) (cols : List Nat) : Except Err Mat :=
  if cols.all (fun j => j < m.ncols) then
    Except.ok ⟨m.rows.map (fun r => cols.map (fun j => r.getD j 0)), cols.length⟩
  else Except.error Err.columnIndexError

/-- Fancy column indexing of a matrix with possibly negative indices. -/
def selectColsInt (m : Mat) (cols : List Int) : Except Err Mat := do
  let resolved ← cols.mapM (resolveIntIndex m.ncols)
  selectColsNat m resolved

/-- Insertion of a number into a sorted list of column indices. -/
def insertSorted (x : Nat) : List Nat → List Nat
  | [] => [x]
  | y :: ys => if x ≤ y then x :: y :: ys else y :: insertSorted x ys

/-- The builtin sorted applied to a list of column indices. -/
def sortNat (xs : List Nat) : List Nat := xs.foldr insertSorted []

/-- Insertion of a vocabulary entry into a list sorted by column index. -/
def insertByVal (p : String × Nat) : List (String × Nat) → List (String × Nat)
  | [] => [p]
  | q :: qs => if p.2 ≤ q.2 then p :: q :: qs else q :: insertByVal p qs

/-- The builtin sorted applied to vocabulary items with the column index as
key. -/
def sortByVal (xs : List (String × Nat)) : List (String × Nat) :=
  xs.foldr insertByVal []

/-- Assignment vocabulary_[name] = idx on the association list: an existing
key is updated in place, a new key is appended. -/
def updateVocab (v : List (String × Nat)) (name : String) (idx : Nat) : List (String × Nat) :=
  if v.any (fun p => p.1 = name) then
    v.map (fun p => if p.1 = name then (name, idx) else p)
  else v ++ [(name, idx)]

/-- The vocabulary-shifting loop of the merge: iterate over the deepcopied
vectorizer's own vocabulary sorted by index, move each name to index plus
num_feats, and append each name to feature_names_. -/
def shiftVocabLoop (d : DictVec) (num_feats : Nat) : DictVec :=
  (sortByVal d.vocab).foldl
    (fun acc p =>
      { vocab := updateVocab acc.vocab p.1 (p.2 + num_feats),
        featureNames := acc.featureNames ++ [p.1] })
    d

/-- Comparison type(self.feat_vectorizer) == type(other.feat_vectorizer),
where a missing vectorizer has type NoneType. -/
def sameVecType : Option Vec → Option Vec → Bool
  | none, none => true
  | some (Vec.dict _), some (Vec.dict _) => true
  | some (Vec.hasher _), some (Vec.hasher _) => true
  | _, _ => false

/-- Call get_feature_names(): defined for DictVectorizer only; a missing or
hashing vectorizer raises AttributeError. -/
def getFeatureNamesE : Option Vec → Except Err (List String)
  | some (Vec.dict d) => Except.ok d.featureNames
  | some (Vec.hasher _) => Except.error Err.attributeError
  | none => Except.error Err.attributeError

/-- An element of the features list passed to filter: either a feature name
(the documented use) or a matrix row (what the subtraction operator actually
passes by iterating over the other set's sparse matrix). -/
inductive FilterKey where
  | name (s : String)
  | row (r : List Int)
  deriving DecidableEq

/-- Membership plus subscription of a filter key through the vectorizer
capability: a name resolves through the Dictionary vocabulary, a matrix row
is never a vocabulary member. -/
def keyLookup (d : DictVec) : FilterKey → Option Nat
  | FilterKey.name s => d.lookup s
  | FilterKey.row _ => none

/-- The expression sorted(vec[name] for name in features if name in vec):
unknown names are silently dropped, survivors are sorted; membership tests
against a hashing or missing vectorizer raise TypeError. -/
def resolveColumns (v : Option Vec) (keys : List FilterKey) : Except Err (List Nat) :=
  match v with
  | some (Vec.dict d) => Except.ok (sortNat (keys.filterMap (keyLookup d)))
  | some (Vec.hasher _) => Except.error Err.typeError
  | none => Except.error Err.typeError

/-- Truncating three-way zip, as the Python builtin zip behaves. -/
def zip3 {α β γ : Type} (as : List α) (bs : List β) (cs : List γ) : List (α × β × γ) :=
  (as.zip (bs.zip cs)).map (fun p => (p.1, p.2.1, p.2.2))

/-- Embedding of FeatureSet.init: with features absent every field is stored
as given; with features present the missing ids and classes arrays are
filled with unset sentinels sized by features.shape[1] (the column count),
and then the code reads self.ids.shape[1] and self.classes.shape[1], which
on the one-dimensional arrays used for ids and classes raises IndexError
before any length comparison can run.  The second raise in the source would
itself crash with a TypeError from applying the percent operator to a
brace-style format string; that path is kept as typeError. -/
def FeatureSet.init (ids : Option (List (Option Int)))
    (classes : Option (List (Option String)))
    (features : Option Mat) (feat_vectorizer : Option Vec) :
    Except Err FeatureSet :=
  match features with
  | none => Except.ok ⟨ids, classes, none, feat_vectorizer⟩
  | some m => do
    let num_feats := m.ncols
    let ids1 := ids.getD (List.replicate num_feats none)
    let classes1 := classes.getD (List.replicate num_feats none)
    let num_ids ← tupleIdx (npShape ids1) 1
    let num_classes ← tupleIdx (npShape classes1) 1
    if num_feats ≠ num_ids then Except.error Err.valueError
    else if num_feats ≠ num_classes then Except.error Err.typeError
    else Except.ok ⟨some ids1, some classes1, some m, feat_vectorizer⟩

/-- Embedding of FeatureSet.len, which reads self.features.shape[1]: the
column count of the feature matrix; a missing matrix raises AttributeError
from the attribute access on None. -/
def FeatureSet.len (fs : FeatureSet) : Except Err Nat :=
  match fs.features with
  | some m => Except.ok m.ncols
  | none => Except.error Err.attributeError

/-- The ids array as consumed by np.in1d inside filter: a missing ids field
is the Python constant None, which np.in1d flattens to a single non-matching
element. -/
def idsArr (fs : FeatureSet) : List (Option Int) := fs.ids.getD [none]

/-- The classes array as consumed by np.in1d inside filter. -/
def classesArr (fs : FeatureSet) : List (Option String) := fs.classes.getD [none]

/-- The row-mask construction of FeatureSet.filter: a ones mask of length
len(self), intersected with the negated membership tests for the ids and
classes arguments, then flipped wholesale under inverse. -/
def buildMask (fs : FeatureSet) (ids : Option (List Int))
    (classes : Option (List String)) (inverse : Bool) : Except Err (List Bool) := do
  let n ← fs.len
  let mask0 := List.replicate n true
  let mask1 ←
    match ids with
    | none => Except.ok mask0
    | some il => npLogicalAnd mask0 ((npIn1dInt (idsArr fs) il).map (fun b => !b))
  let mask2 ←
    match classes with
    | none => Except.ok mask1
    | some cl => npLogicalAnd mask1 ((npIn1dStr (classesArr fs) cl).map (fun b => !b))
  Except.ok (if inverse then mask2.map (fun b => !b) else mask2)

/-- Embedding of FeatureSet.filter.  The mask is applied to the ids, classes
and feature rows; then, if a features list was given, the names are resolved
through the vectorizer and the matrix is column-indexed by the resolved
indices, or by their bitwise invert when inverse is set.  The result is the
post-state of the receiver (filter mutates in place and returns nothing). -/
def FeatureSet.filter (fs : FeatureSet) (ids : Option (List Int))
    (classes : Option (List String)) (features : Option (List FilterKey))
    (inverse : Bool) : Except Err FeatureSet := do
  let mask ← buildMask fs ids classes inverse
  let newIds ←
    match fs.ids with
    | none => Except.error Err.typeError
    | some l => npBoolIndex l mask
  let newClasses ←
    match fs.classes with
    | none => Except.error Err.typeError
    | some l => npBoolIndex l mask
  let m ←
    match fs.features with
    | none => Except.error Err.typeError
    | some m => Except.ok m
  let keptRows ← npBoolIndex m.rows mask
  let m1 : Mat := ⟨keptRows, m.ncols⟩
  let m2 ←
    match features with
    | none => Except.ok m1
    | some keys => do
      let columns ← resolveColumns fs.feat_vectorizer keys
      if inverse then do
        let neg ← npInvert columns
        selectColsInt m1 neg
      else selectColsNat m1 columns
  Except.ok { fs with ids := some newIds, classes := some newClasses, features := some m2 }

/-- One loop iteration of filtered_iter: the skip tests on id and class
compare membership against the inverse flag, then the yielded row is sliced
by the resolved columns when inverse is set, by their bitwise invert when it
is not, and with no features argument the row is yielded whole under inverse
and as an empty array otherwise. -/
def iterStep (columnsOpt : Option (List Nat)) (ncols : Nat)
    (ids : Option (List Int)) (classes : Option (List String)) (inverse : Bool)
    (t : Option Int × Option String × List Int) :
    Except Err (Option (Option Int × Option String × List Int)) :=
  let exId := t.1
  let exClass := t.2.1
  let exFeats := t.2.2
  let idSkip :=
    match ids with
    | some il =>
      (match exId with
       | some v => il.contains v
       | none => false) == inverse
    | none => false
  let classSkip :=
    match classes with
    | some cl =>
      (match exClass with
       | some v => cl.contains v
       | none => false) == inverse
    | none => false
  if idSkip then Except.ok none
  else if classSkip then Except.ok none
  else
    match columnsOpt with
    | some cols =>
      if inverse then do
        let r ← rowSelectNat exFeats cols ncols
        Except.ok (some (exId, exClass, r))
      else do
        let neg ← npInvert cols
        let r ← rowSelectInt exFeats neg ncols
        Except.ok (some (exId, exClass, r))
    | none =>
      if inverse then Except.ok (some (exId, exClass, exFeats))
      else Except.ok (some (exId, exClass, []))

/-- Embedding of FeatureSet.filtered_iter: the columns are resolved once
before traversal, then the generator walks zip(ids, classes, features)
collecting the yielded triples; a missing ids, classes or features field
makes the zip raise TypeError. -/
def FeatureSet.filtered_iter (fs : FeatureSet) (ids : Option (List Int))
    (classes : Option (List String)) (features : Option (List FilterKey))
    (inverse : Bool) :
    Except Err (List (Option Int × Option String × List Int)) := do
  let columnsOpt ←
    match features with
    | none => Except.ok (none : Option (List Nat))
    | some keys => do
      let cs ← resolveColumns fs.feat_vectorizer keys
      Except.ok (some cs)
  let idsL ←
    match fs.ids with
    | none => Except.error Err.typeError
    | some l => Except.ok l
  let clsL ←
    match fs.classes with
    | none => Except.error Err.typeError
    | some l => Except.ok l
  let m ←
    match fs.features with
    | none => Except.error Err.typeError
    | some m => Except.ok m
  (zip3 idsL clsL m.rows).foldlM
    (fun acc t => do
      match (← iterStep columnsOpt m.ncols ids classes inverse t) with
      | some y => Except.ok (acc ++ [y])
      | none => Except.ok acc)
    []

/-- Embedding of FeatureSet.add.  The branch with self.features present
checks vectorizer types, checks vocabulary disjointness through the
feature_names_ lists, horizontally stacks the matrices, and rebuilds a
vectorizer by running the shifting loop over the deepcopy of the left
vectorizer; the branch without features copies the right operand's matrix
and vectorizer.  Then the ids comparison and the label reconciliation run.
The new set's ids field is never assigned by the source, and its classes
field is assigned only when the right operand has a set label and the left
set's classes field is the Python constant None. -/
def FeatureSet.add (self other : FeatureSet) : Except Err FeatureSet := do
  let fv ←
    match self.features with
    | some sf =>
      if sameVecType self.feat_vectorizer other.feat_vectorizer = false then
        Except.error Err.incompatibleVectorizer
      else
        let isHasher :=
          match self.feat_vectorizer with
          | some (Vec.hasher _) => true
          | _ => false
        let dupCheck : Except Err Unit :=
          if isHasher = false then do
            let selfNames ← getFeatureNamesE self.feat_vectorizer
            let otherNames ← getFeatureNamesE other.feat_vectorizer
            if selfNames.any (fun n => otherNames.contains n) then
              Except.error Err.duplicateFeatureName
            else Except.ok ()
          else Except.ok ()
        match dupCheck with
        | Except.error e => Except.error e
        | Except.ok _ =>
          match other.features with
          | none => Except.error Err.valueError
          | some om =>
            if sf.rows.length ≠ om.rows.length then Except.error Err.valueError
            else
              if isHasher then Except.ok (some (hstackM sf om), self.feat_vectorizer)
              else
                match self.feat_vectorizer with
                | some (Vec.dict d) =>
                  Except.ok (some (hstackM sf om), some (Vec.dict (shiftVocabLoop d sf.ncols)))
                | _ => Except.error Err.attributeError
    | none => Except.ok (other.features, other.feat_vectorizer)
  if npAllEqO self.ids other.ids = false then Except.error Err.misalignedIds
  else do
    let nsClasses ←
      match other.classes with
      | none => Except.error Err.typeError
      | some ocs =>
        if ocs.any (fun c => c.isSome) then
          match self.classes with
          | none => Except.ok other.classes
          | some scs =>
            if npAllEqList scs ocs = false then Except.error Err.conflictingLabels
            else Except.ok (none : Option (List (Option String)))
        else Except.ok (none : Option (List (Option String)))
    Except.ok ⟨none, nsClasses, fv.1, fv.2⟩

/-- Embedding of FeatureSet.sub: deepcopy the receiver and call filter with
the other operand's feature MATRIX passed as the features argument (each
iterated matrix row becomes one filter key) and inverse set; when the other
operand has no matrix the features argument is the Python constant None. -/
def FeatureSet.sub (a b : FeatureSet) : Except Err FeatureSet :=
  match b.features with
  | some m => a.filter none none (some (m.rows.map FilterKey.row)) true
  | none => a.filter none none none true

/-!
Store-threaded translation of the merge, used to express the atomicity
guarantee: DictVectorizer objects are the only mutable state the merge
touches (the shifting loop assigns into vocabulary_ and appends to
feature_names_ of the deepcopied vectorizer), so they live in an explicit
store of cells and a feature set holds a reference into that store.  A
deepcopy allocates a fresh cell; the shifting loop writes only that fresh
cell (its per-item writes are collapsed into one write of the fully shifted
copy, observationally equal since nothing reads the cell in between).  All
immutable fields are plain Lean values carried unchanged.
-/

/-- Heap of DictVectorizer objects. -/
structure Store where
  cells : List DictVec
  deriving DecidableEq

/-- Dereference of a vectorizer cell. -/
def Store.readCell (st : Store) (i : Nat) : Option DictVec := st.cells[i]?

/-- Allocation of a fresh vectorizer cell, as done by deepcopy. -/
def Store.alloc (st : Store) (d : DictVec) : Store × Nat :=
  (⟨st.cells ++ [d]⟩, st.cells.length)

/-- In-place update of an existing vectorizer cell. -/
def Store.writeCell (st : Store) (i : Nat) (d : DictVec) : Store :=
  ⟨st.cells.set i d⟩

/-- Vectorizer handle of the store-threaded translation: a reference into
the store for the Dictionary variant, an immutable width for the Hashing
variant. -/
inductive VecH where
  | dictRef (i : Nat)
  | hasher (n : Nat)
  deriving DecidableEq

/-- FeatureSet of the store-threaded translation. -/
structure FSH where
  ids : Option (List (Option Int))
  classes : Option (List (Option String))
  features : Option Mat
  feat_vectorizer : Option VecH
  deriving DecidableEq

/-- Vectorizer type comparison of the store-threaded translation. -/
def sameVecTypeH : Option VecH → Option VecH → Bool
  | none, none => true
  | some (VecH.dictRef _), some (VecH.dictRef _) => true
  | some (VecH.hasher _), some (VecH.hasher _) => true
  | _, _ => false

/-- get_feature_names() through a store reference. -/
def getFeatureNamesH (st : Store) : Option VecH → Except Err (List String)
  | some (VecH.dictRef i) =>
    match st.readCell i with
    | some d => Except.ok d.featureNames
    | none => Except.error Err.attributeError
  | some (VecH.hasher _) => Except.error Err.attributeError
  | none => Except.error Err.attributeError

/-- isinstance(feat_vectorizer, FeatureHasher) on a store handle. -/
def isHasherH : Option VecH → Bool
  | some (VecH.hasher _) => true
  | _ => false

/-- The duplicate feature-name check of the merge, reading both vocabularies
out of the store. -/
def dupCheckH (st : Store) (self other : FSH) : Except Err Unit :=
  if isHasherH self.feat_vectorizer = false then do
    let selfNames ← getFeatureNamesH st self.feat_vectorizer
    let otherNames ← getFeatureNamesH st other.feat_vectorizer
    if selfNames.any (fun n => otherNames.contains n) then
      Except.error Err.duplicateFeatureName
    else Except.ok ()
  else Except.ok ()

/-- The deepcopy-then-shift of the left vectorizer: allocate a fresh cell
for the copy and run the shifting loop on that cell in place. -/
def combineVecDict (st : Store) (selfVec : Option VecH) (newFeats : Mat)
    (ncolsLeft : Nat) : Store × Except Err (Option Mat × Option VecH) :=
  match selfVec with
  | some (VecH.dictRef r) =>
    match st.readCell r with
    | some d =>
      ((st.alloc d).1.writeCell (st.alloc d).2 (shiftVocabLoop d ncolsLeft),
       Except.ok (some newFeats, some (VecH.dictRef (st.alloc d).2)))
    | none => (st, Except.error Err.attributeError)
  | _ => (st, Except.error Err.attributeError)

/-- The no-left-matrix branch of the merge: deepcopy the right operand's
matrix and vectorizer (the vectorizer deepcopy allocates a fresh cell). -/
def copyOtherVec (st : Store) (other : FSH) :
    Store × Except Err (Option Mat × Option VecH) :=
  match other.feat_vectorizer with
  | some (VecH.dictRef r) =>
    match st.readCell r with
    | some d => ((st.alloc d).1, Except.ok (other.features, some (VecH.dictRef (st.alloc d).2)))
    | none => (st, Except.error Err.attributeError)
  | v => (st, Except.ok (other.features, v))

/-- The feature-and-vectorizer half of the merge, threading the store: the
type check, the duplicate-name check, the horizontal stack, and either the
deepcopy-then-shift of the left vectorizer or (when the left set has no
matrix) the deepcopy of the right vectorizer. -/
def combineVec (st : Store) (self other : FSH) :
    Store × Except Err (Option Mat × Option VecH) :=
  match self.features with
  | some sf =>
    if sameVecTypeH self.feat_vectorizer other.feat_vectorizer = false then
      (st, Except.error Err.incompatibleVectorizer)
    else
      match dupCheckH st self other with
      | Except.error e => (st, Except.error e)
      | Except.ok _ =>
        match other.features with
        | none => (st, Except.error Err.valueError)
        | some om =>
          if sf.rows.length ≠ om.rows.length then (st, Except.error Err.valueError)
          else
            if isHasherH self.feat_vectorizer then
              (st, Except.ok (some (hstackM sf om), self.feat_vectorizer))
            else combineVecDict st self.feat_vectorizer (hstackM sf om) sf.ncols
  | none => copyOtherVec st other

/-- The id comparison and label reconciliation half of the merge; it reads
only immutable fields and never touches the store. -/
def reconcile (self other : FSH) (nf : Option Mat) (nv : Option VecH) :
    Except Err FSH :=
  if npAllEqO self.ids other.ids = false then Except.error Err.misalignedIds
  else do
    let nsClasses ←
      match other.classes with
      | none => Except.error Err.typeError
      | some ocs =>
        if ocs.any (fun c => c.isSome) then
          match self.classes with
          | none => Except.ok other.classes
          | some scs =>
            if npAllEqList scs ocs = false then Except.error Err.conflictingLabels
            else Except.ok (none : Option (List (Option String)))
        else Except.ok (none : Option (List (Option String)))
    Except.ok ⟨none, nsClasses, nf, nv⟩

/-- Store-threaded embedding of FeatureSet.add: the final store together
with the result or the raised error. -/
def FSH.add (st : Store) (self other : FSH) : Store × Except Err FSH :=
  match combineVec st self other with
  | (st1, Except.error e) => (st1, Except.error e)
  | (st1, Except.ok (nf, nv)) => (st1, reconcile self other nf nv)

theorem readCell_alloc (st : Store) (d : DictVec) (i : Nat)
    (h : i < st.cells.length) : (st.alloc d).1.readCell i = st.readCell i := by
  simp only [Store.alloc, Store.readCell]
  rw [List.getElem?_append, if_pos h]

theorem readCell_writeCell_ne (st : Store) (j : Nat) (d : DictVec) (i : Nat)
    (h : i ≠ j) : (st.writeCell j d).readCell i = st.readCell i := by
  simp only [Store.writeCell, Store.readCell]
  exact List.getElem?_set_ne (fun hji => h hji.symm)

theorem readCell_alloc_write (st : Store) (d d2 : DictVec) (i : Nat)
    (h : i < st.cells.length) :
    ((st.alloc d).1.writeCell (st.alloc d).2 d2).readCell i = st.readCell i := by
  rw [readCell_writeCell_ne, readCell_alloc st d i h]
  simp only [Store.alloc]
  omega

theorem combineVecDict_preserves (st : Store) (v : Option VecH) (nf : Mat)
    (k : Nat) (i : Nat) (h : i < st.cells.length) :
    (combineVecDict st v nf k).1.readCell i = st.readCell i := by
  unfold combineVecDict
  split
  · split
    · exact readCell_alloc_write st _ _ i h
    · rfl
  · rfl

theorem copyOtherVec_preserves (st : Store) (b : FSH) (i : Nat)
    (h : i < st.cells.length) :
    (copyOtherVec st b).1.readCell i = st.readCell i := by
  unfold copyOtherVec
  split
  · split
    · exact readCell_alloc st _ i h
    · rfl
  · rfl

theorem combineVec_preserves (st : Store) (a b : FSH) (i : Nat)
    (h : i < st.cells.length) : (combineVec st a b).1.readCell i = st.readCell i := by
  unfold combineVec
  split
  case _ sf hsf =>
    split
    · rfl
    · split
      · rfl
      · split
        · rfl
        · split
          · rfl
          · split
            · rfl
            · exact combineVecDict_preserves st _ _ _ i h
  case _ hna => exact copyOtherVec_preserves st b i h

theorem addStore_preserves (st : Store) (a b : FSH) (i : Nat)
    (h : i < st.cells.length) : (FSH.add st a b).1.readCell i = st.readCell i := by
  unfold FSH.add
  have hc := combineVec_preserves st a b i h
  split
  case _ st1 e heq => rw [heq] at hc; exact hc
  case _ st1 nf nv heq => rw [heq] at hc; exact hc

/-! Concrete inputs used to evaluate the operations. -/

/-- Dictionary vectorizer of the left merge operand: one feature f1 at
column 0. -/
def vecF1 : DictVec := ⟨[("f1", 0)], ["f1"]⟩

/-- Dictionary vectorizer of the right merge operand: one feature f2 at
column 0. -/
def vecF2 : DictVec := ⟨[("f2", 0)], ["f2"]⟩

/-- Left merge operand of the worked example: ids 1,2,3, classes x,x,y, one
feature column f1. -/
def exA : FeatureSet :=
  ⟨some [some 1, some 2, some 3],
   some [some "x", some "x", some "y"],
   some ⟨[[1], [2], [3]], 1⟩,
   some (Vec.dict vecF1)⟩

/-- Right merge operand of the worked example: same ids, classes all unset,
one feature column f2. -/
def exB : FeatureSet :=
  ⟨some [some 1, some 2, some 3],
   some [none, none, none],
   some ⟨[[4], [5], [6]], 1⟩,
   some (Vec.dict vecF2)⟩

/-- Two-example set with one feature column, used to compare filter with
filtered_iter. -/
def ex3 : FeatureSet :=
  ⟨some [some 1, some 2],
   some [some "a", some "b"],
   some ⟨[[10], [20]], 1⟩,
   some (Vec.dict ⟨[("f", 0)], ["f"]⟩)⟩

/-- Two-example, two-column receiver of the subtraction. -/
def exA4 : FeatureSet :=
  ⟨some [some 1, some 2],
   some [some "a", some "b"],
   some ⟨[[1, 2], [3, 4]], 2⟩,
   some (Vec.dict ⟨[("f1", 0), ("f2", 1)], ["f1", "f2"]⟩)⟩

/-- Right operand of the subtraction, whose vocabulary holds f2. -/
def exB4 : FeatureSet :=
  ⟨some [some 1],
   some [none],
   some ⟨[[5]], 1⟩,
   some (Vec.dict vecF2)⟩

/-- Three-example, two-column set whose row count differs from its column
count. -/
def ex5 : FeatureSet :=
  ⟨some [some 1, some 2, some 3],
   some [none, none, none],
   some ⟨[[1, 2], [3, 4], [5, 6]], 2⟩,
   some (Vec.dict ⟨[("g1", 0), ("g2", 1)], ["g1", "g2"]⟩)⟩

/-- Three-example, three-column set used to exercise the inverse feature
filter. -/
def ex6 : FeatureSet :=
  ⟨some [some 1, some 2, some 3],
   some [none, none, none],
   some ⟨[[11, 12, 13], [21, 22, 23], [31, 32, 33]], 3⟩,
   some (Vec.dict ⟨[("h0", 0), ("h1", 1), ("h2", 2)], ["h0", "h1", "h2"]⟩)⟩

/-- Empty placeholder set, as constructed with no arguments. -/
def exEmpty : FeatureSet := ⟨none, none, none, none⟩

/-- Populated set merged against the empty placeholder. -/
def exX : FeatureSet :=
  ⟨some [some 1],
   some [some "a"],
   some ⟨[[7]], 1⟩,
   some (Vec.dict ⟨[("g", 0)], ["g"]⟩)⟩

/-- Set with two example rows and three feature columns, witnessing that
row count and column count differ. -/
def fs10 : FeatureSet :=
  ⟨some [some 1, some 2],
   some [none, none],
   some ⟨[[1, 2, 3], [4, 5, 6]], 3⟩,
   some (Vec.dict ⟨[("a", 0), ("b", 1), ("c", 2)], ["a", "b", "c"]⟩)⟩

/-- Store holding the one shared vectorizer object of the C9 witness. -/
def wSt : Store := ⟨[vecF1]⟩

/-- Left operand of the C9 witness, referencing cell 0. -/
def wA : FSH :=
  ⟨some [some 1], some [some "a"], some ⟨[[1]], 1⟩, some (VecH.dictRef 0)⟩

/-- Right operand of the C9 witness, referencing the same cell 0 so that the
vocabularies collide. -/
def wB : FSH :=
  ⟨some [some 1], some [some "a"], some ⟨[[2]], 1⟩, some (VecH.dictRef 0)⟩

/-! Claim theorems. -/

/-- C1: the claim states that merging two Dictionary-vectorized sets with
disjoint names and equal ids yields a vectorizer mapping every left name to
its original column and every right name to its original column shifted by
the left column count.  Evaluating the code on the worked example shows the
opposite: the merged vocabulary maps the LEFT name f1 to the shifted index 1
(which is the right operand's column), holds no entry at all for the right
name f2, and duplicates f1 inside feature_names_, because the shifting loop
iterates over the deepcopy of the left vocabulary instead of the right one. -/
theorem C1_merged_vectorizer_shifts_left_and_drops_right :
    FeatureSet.add exA exB =
      Except.ok
        ⟨none, none, some ⟨[[1, 4], [2, 5], [3, 6]], 2⟩,
         some (Vec.dict ⟨[("f1", 1)], ["f1", "f1"]⟩)⟩ := rfl

/-- C2: the claim states that on the worked example the merge returns ids
1,2,3 and classes x,x,y.  Evaluating the code shows the merge raises no
error but returns a set whose ids field and classes field are both the
Python constant None: the source never assigns new_set.ids, and it assigns
new_set.classes only when the right operand has some set label. -/
theorem C2_merge_returns_unset_ids_and_classes :
    ∃ fsm, FeatureSet.add exA exB = Except.ok fsm ∧
      fsm.ids = none ∧ fsm.classes = none :=
  ⟨_, rfl, rfl, rfl⟩

/-- C3: the claim states that filtered_iter yields exactly the rows an
equivalent filter call retains, with full rows when no feature list is
given.  Evaluating both on the same set and arguments shows filter REMOVES
the listed id (keeping id 2 with its full row) while filtered_iter KEEPS the
listed id and yields an EMPTY feature row, so the two disagree on both the
selection polarity and the row contents. -/
theorem C3_filtered_iter_disagrees_with_filter :
    FeatureSet.filter ex3 (some [1]) none none false =
      Except.ok
        ⟨some [some 2], some [some "b"], some ⟨[[20]], 1⟩,
         some (Vec.dict ⟨[("f", 0)], ["f"]⟩)⟩ ∧
    FeatureSet.filtered_iter ex3 (some [1]) none none false =
      Except.ok [(some 1, some "a", [])] :=
  ⟨rfl, rfl⟩

/-- C4: the claim states that subtraction removes exactly the columns named
in the other vocabulary and preserves every id, class and surviving row.
Evaluating the code shows the call raises a TypeError instead: the source
passes the other feature MATRIX where names are expected, so no name
resolves, the inverse flag first empties the row mask, and the tilde on the
resulting empty (float-typed) index array fails. -/
theorem C4_sub_raises_type_error :
    FeatureSet.sub exA4 exB4 = Except.error Err.invertTypeError := rfl

/-- C5: the claim states that filtering by an id removes exactly the rows
with that id for every FeatureSet.  Evaluating the code on a set with three
rows and two columns shows the call raises a broadcast ValueError instead,
because the mask is sized by len(self), the column count, and cannot be
combined with the three-element id membership array. -/
theorem C5_filter_by_id_broadcast_error :
    FeatureSet.filter ex5 (some [1]) none none false =
      Except.error Err.broadcastError := rfl

/-- C6: the claim states that with inverse set, exactly the resolved columns
are dropped and all other columns kept.  Evaluating the code on a
three-column set, dropping h0 (column 0), shows the surviving matrix has a
single column holding the values of h2 (column 2, reached through the
bitwise invert of index 0, i.e. index -1) instead of the two columns h1 and
h2 that the complement would keep; the inverse flag also flips the row mask,
here keeping only the row whose id is listed. -/
theorem C6_inverse_feature_filter_keeps_wrong_columns :
    FeatureSet.filter ex6 (some [1]) none (some [FilterKey.name "h0"]) true =
      Except.ok
        ⟨some [some 1], some [(none : Option String)], some ⟨[[13]], 1⟩,
         some (Vec.dict ⟨[("h0", 0), ("h1", 1), ("h2", 2)], ["h0", "h1", "h2"]⟩)⟩ := rfl

/-- C7: the claim states that construction with features present either
fails with ShapeMismatch exactly on a row-count disagreement or succeeds
with the three lengths equal.  Evaluating the code shows every construction
with a features matrix raises IndexError instead, whatever the ids and
classes arguments are: the source reads shape[1] of the one-dimensional ids
array (after sizing the default arrays by the COLUMN count of the matrix),
and a one-dimensional shape tuple has no index 1. -/
theorem C7_init_with_features_always_index_error
    (ids : Option (List (Option Int))) (classes : Option (List (Option String)))
    (m : Mat) (v : Option Vec) :
    FeatureSet.init ids classes (some m) v = Except.error Err.indexError := rfl

/-- C8: the claim states that the empty placeholder can be the left operand
of a merge, the result carrying the right operand's features and vectorizer.
Evaluating the code shows the merge raises the misaligned-ids ValueError
instead, because the placeholder's ids field is the Python constant None and
comparing None against the populated ids array yields a scalar False. -/
theorem C8_empty_left_merge_raises :
    FeatureSet.add exEmpty exX = Except.error Err.misalignedIds := rfl

/-- C9: whenever the merge fails, both operands are left exactly as before
the call.  In the store-threaded translation the operands' immutable fields
are carried unchanged by construction, and the mutable state is the store of
DictVectorizer objects; the theorem shows that after a failing merge every
pre-existing store cell, in particular the cell either operand's vectorizer
references, still holds its original vectorizer: the merge only allocates
fresh cells for deepcopies and mutates those. -/
theorem C9_merge_failure_preserves_operands (st : Store) (a b : FSH) (e : Err)
    (hfail : (FSH.add st a b).2 = Except.error e) (i : Nat)
    (hi : i < st.cells.length) :
    (FSH.add st a b).1.readCell i = st.readCell i :=
  addStore_preserves st a b i hi

/-- Witness for C9: merging two sets that share the one vectorizer cell of
the store fails with the duplicate-name error, and the cell still holds the
original vectorizer afterwards. -/
theorem C9_witness : (FSH.add wSt wA wB).1.readCell 0 = wSt.readCell 0 :=
  C9_merge_failure_preserves_operands wSt wA wB Err.duplicateFeatureName rfl 0
    (by decide)

/-- C10: for every FeatureSet whose features matrix is present, len returns
the number of feature columns of the matrix, not the number of examples,
and consequently the initial row mask that filter builds through len(self)
has length equal to the column count. -/
theorem C10_len_is_column_count (fs : FeatureSet) (m : Mat)
    (h : fs.features = some m) :
    fs.len = Except.ok m.ncols ∧
    buildMask fs none none false = Except.ok (List.replicate m.ncols true) ∧
    (m.rows.length ≠ m.ncols → fs.len ≠ Except.ok m.rows.length) := by
  have hlen : fs.len = Except.ok m.ncols := by
    unfold FeatureSet.len
    rw [h]
  refine ⟨hlen, ?_, ?_⟩
  · unfold buildMask
    rw [hlen]
    rfl
  · intro hne hc
    rw [hlen] at hc
    injection hc with h2
    exact hne h2.symm

/-- Witness for C10: on a set with two example rows and three feature
columns, len evaluates to 3 and the initial filter mask to three entries. -/
theorem C10_witness :
    fs10.len = Except.ok 3 ∧
    buildMask fs10 none none false = Except.ok (List.replicate 3 true) ∧
    ((2 : Nat) ≠ 3 → fs10.len ≠ Except.ok 2) :=
  C10_len_is_column_count fs10 ⟨[[1, 2, 3], [4, 5, 6]], 3⟩ rfl

end Skll
